import Mathlib

/-!
Verification of the Promptly frontend core: the submission orchestration in
App.jsx (handleGenerate, handleReset), the form logic in
components/Generator.jsx (handleInputChange, handleSubmit) and the transport
adapter in services/api.js (the axios instance, generateContent, checkHealth).

The embedding is shallow: JavaScript values are modelled by the inductive
JsValue, the axios transport outcome by TransportOutcome, and each source
function by a Lean function of the same name. React state updates become
explicit state passing on AppState; the event-loop interleaving of two
overlapping handleGenerate invocations is modelled by a list of atomic
actions applied in time order (runActions).
-/

namespace Promptly

/-- Model of a JavaScript/JSON value, covering the shapes that flow through
the frontend: strings, numbers (modelled as rationals), booleans, null,
undefined, objects as ordered key/value lists, and arrays. -/
inductive JsValue where
  | str (s : String)
  | num (q : ℚ)
  | bool (b : Bool)
  | null
  | undefined
  | obj (fields : List (String × JsValue))
  | arr (elems : List JsValue)

/-- Truthiness of a JavaScript value, as used by the || operator in
api.js line 32: undefined, null, the empty string, 0 and false are falsy. -/
def jsFalsy : JsValue → Bool
  | .str s => s == ""
  | .num q => q == 0
  | .bool b => !b
  | .null => true
  | .undefined => true
  | .obj _ => false
  | .arr _ => false

/-- The JavaScript a || b expression: b when a is falsy, otherwise a. -/
def jsOr (a b : JsValue) : JsValue :=
  if jsFalsy a then b else a

/-- Optional-chaining property access data?.k: the value of field k when the
receiver is an object holding it, undefined otherwise (undefined both for an
absent field and for a non-object receiver, which is all the source needs). -/
def jsGetOpt (v : JsValue) (k : String) : JsValue :=
  match v with
  | .obj fields =>
    match fields.find? (fun p => p.1 == k) with
    | some p => p.2
    | none => .undefined
  | _ => .undefined

/-- String conversion as performed by template-literal interpolation.
Every interpolation in the source receives a string (an error-body message
field or a statusText), so only the str case is exercised by the claims; the
composite cases are placeholders and never reached by any theorem below. -/
def jsToString : JsValue → String
  | .str s => s
  | .num q => toString q
  | .bool b => if b then "true" else "false"
  | .null => "null"
  | .undefined => "undefined"
  | .obj _ => "[object Object]"
  | .arr _ => ""

/-- ECMAScript String.prototype.trim, which strips leading and trailing
whitespace. Implemented directly on the character list (equivalent to Lean
String.trim on the whitespace involved) so that concrete inputs evaluate by
kernel reduction. -/
def jsTrim (s : String) : String :=
  ⟨((s.data.dropWhile Char.isWhitespace).reverse.dropWhile Char.isWhitespace).reverse⟩

/-- An HTTP response as axios delivers it: numeric status, the decoded JSON
body (axios parses JSON automatically), and the status text. -/
structure HttpResponse where
  status : Nat
  data : JsValue
  statusText : String

/-- Outcome of one network attempt, the environment of a single call:
either some HTTP response arrived (any status), or the request was sent but
no response came back (connection refused, DNS failure, or the 60000 ms
timeout elapsing), or the call failed before dispatch. -/
inductive TransportOutcome where
  | response (r : HttpResponse)
  | noResponse
  | setupFailure (msg : String)

/-- How an axios call settles: it resolves for a 2xx response (the default
validateStatus accepts 200 <= status < 300) and otherwise rejects with an
error object carrying error.response for a non-2xx response, error.request
when no response was received, and neither for a pre-dispatch failure. -/
inductive AxiosResult where
  | ok (r : HttpResponse)
  | errResponse (r : HttpResponse)
  | errRequest
  | errSetup (msg : String)

/-- Mapping from a transport outcome to the settled axios result. -/
def axiosExec : TransportOutcome → AxiosResult
  | .response r =>
    if 200 ≤ r.status ∧ r.status < 300 then .ok r else .errResponse r
  | .noResponse => .errRequest
  | .setupFailure m => .errSetup m

/-- Configuration of the axios instance created in services/api.js lines
4-10: base URL, per-request timeout in milliseconds, and content type. -/
structure ApiConfig where
  baseURL : String
  timeout : Nat
  contentType : String

/-- The api constant of services/api.js: axios.create with baseURL
http://localhost:8000, timeout 60000 and Content-Type application/json. -/
def api : ApiConfig :=
  { baseURL := "http://localhost:8000"
    timeout := 60000
    contentType := "application/json" }

/-- The message thrown by generateContent when error.request is set but no
response was received (services/api.js line 35). -/
def networkErrorMessage : String :=
  "Network Error: Unable to connect to server. Please check if backend is running."

/-- generateContent of services/api.js lines 22-41: POST the payload to
/generate and return response.data on success; on rejection, rethrow as
API Error (message from error.response.data?.message || statusText) when a
response arrived, as the fixed Network Error message when no response
arrived, and as Request Error otherwise. The payload does not influence the
outcome, which is the environment; it is kept to mirror the signature. -/
def generateContent (payload : JsValue) (o : TransportOutcome) :
    Except String JsValue :=
  match axiosExec o with
  | .ok r => .ok r.data
  | .errResponse r =>
    .error ("API Error: " ++ jsToString (jsOr (jsGetOpt r.data "message") (.str r.statusText)))
  | .errRequest => .error networkErrorMessage
  | .errSetup m => .error ("Request Error: " ++ m)

/-- checkHealth of services/api.js lines 47-55: GET /health and report
response.status === 200; every rejection is caught and reported as false.
Totality of this Lean function is the never-throws contract. -/
def checkHealth (o : TransportOutcome) : Bool :=
  match axiosExec o with
  | .ok r => r.status == 200
  | _ => false

/-- The React state owned by App.jsx lines 8-10: result (null or the decoded
response body), isLoading, and error (null or a message string). -/
structure AppState where
  result : Option JsValue
  isLoading : Bool
  error : Option String

/-- Initial App state: useState(null), useState(false), useState(null). -/
def initialAppState : AppState :=
  { result := none, isLoading := false, error := none }

/-- handleGenerate of App.jsx lines 12-26, run to completion for a given
transport outcome: set isLoading true, clear error and result, await
generateContent; on success store the response as result, on caught error
store err.message as error; finally set isLoading false. -/
def handleGenerate (payload : JsValue) (o : TransportOutcome) (s : AppState) :
    AppState :=
  let s1 : AppState := { s with isLoading := true, error := none, result := none }
  match generateContent payload o with
  | .ok d => { s1 with result := some d, isLoading := false }
  | .error m => { s1 with error := some m, isLoading := false }

/-- handleReset of App.jsx lines 28-31: setResult(null); setError(null). -/
def handleReset (s : AppState) : AppState :=
  { s with result := none, error := none }

/-- The form state of Generator.jsx lines 11-17. Each field holds a
JavaScript value: after a change event the non-checkbox fields hold the raw
input string, so temperature and max_tokens are not typed as numbers. -/
structure FormData where
  text : JsValue
  platform : JsValue
  temperature : JsValue
  max_tokens : JsValue
  use_legacy : JsValue

/-- The useState initializer of Generator.jsx lines 11-17. -/
def initialFormData : FormData :=
  { text := .str ""
    platform := .str "General"
    temperature := .num (7 / 10)
    max_tokens := .num 256
    use_legacy := .bool false }

/-- A change event as destructured in handleInputChange: target name, target
value (always a string on the DOM), whether the target type is checkbox, and
the checked flag. -/
structure InputEvent where
  name : String
  value : String
  isCheckbox : Bool
  checked : Bool

/-- handleInputChange of Generator.jsx lines 20-26: spread the previous
state and overwrite the field named by the event with the checked boolean
for a checkbox and with the raw string value otherwise. The component
renders inputs only under the five names below, so the computed-key update
touches exactly one of the five fields. -/
def handleInputChange (e : InputEvent) (prev : FormData) : FormData :=
  let v : JsValue := if e.isCheckbox then .bool e.checked else .str e.value
  if e.name == "text" then { prev with text := v }
  else if e.name == "platform" then { prev with platform := v }
  else if e.name == "temperature" then { prev with temperature := v }
  else if e.name == "max_tokens" then { prev with max_tokens := v }
  else if e.name == "use_legacy" then { prev with use_legacy := v }
  else prev

/-- The test !formData.text.trim() of Generator.jsx line 30: true exactly
when the text field trims to the empty string. The text field is written
only by the textarea, so it always holds a string in reachable form states. -/
def textBlank (fd : FormData) : Bool :=
  match fd.text with
  | .str s => jsTrim s == ""
  | _ => false

/-- What a submit event leads to in handleSubmit: either the validation
alert, or the invocation of onGenerate with the current form data. -/
inductive SubmitAction where
  | alert (msg : String)
  | generate (fd : FormData)

/-- handleSubmit of Generator.jsx lines 28-35: preventDefault, then block
with an alert when the text trims empty, else call onGenerate(formData). -/
def handleSubmit (fd : FormData) : SubmitAction :=
  if textBlank fd then .alert "Please enter your content idea"
  else .generate fd

/-- The JSON body axios serializes from the formData object passed to
generateContent: the five properties in declaration order, holding exactly
the JavaScript values currently in form state. -/
def wireBody (fd : FormData) : JsValue :=
  .obj [("text", fd.text), ("platform", fd.platform),
        ("temperature", fd.temperature), ("max_tokens", fd.max_tokens),
        ("use_legacy", fd.use_legacy)]

/-- One full submission attempt as wired in the app: Generator.handleSubmit
decides, and on generate, App.handleGenerate runs against the transport
outcome. The second component is the payload POSTed to /generate, none when
the submission was blocked and no network call was made. -/
def submitFlow (fd : FormData) (o : TransportOutcome) (s : AppState) :
    AppState × Option JsValue :=
  match handleSubmit fd with
  | .alert _ => (s, none)
  | .generate fd1 => (handleGenerate (wireBody fd1) o s, some (wireBody fd1))

/-- An atomic step of handleGenerate on the event loop: start is the
synchronous prefix before the await (isLoading true, error and result
cleared), settle is the continuation after generateContent settles (store
result or error, isLoading false). -/
inductive Action where
  | start
  | settle (r : Except String JsValue)

/-- Effect of one atomic step on the App state. -/
def applyAction (s : AppState) : Action → AppState
  | .start => { s with isLoading := true, error := none, result := none }
  | .settle (.ok v) => { s with result := some v, isLoading := false }
  | .settle (.error m) => { s with error := some m, isLoading := false }

/-- Apply a time-ordered schedule of atomic steps. Overlapping invocations
of handleGenerate interleave as their starts and settlements occur. -/
def runActions (s : AppState) (l : List Action) : AppState :=
  l.foldl applyAction s

/-- App states reachable when submissions are strictly sequential: a start
only fires while not loading (the Generator disables the submit button while
a request is in flight), a settlement only while loading, and reset may fire
at any time. -/
inductive ReachableSeq : AppState → Prop where
  | init : ReachableSeq initialAppState
  | start {s : AppState} :
      ReachableSeq s → s.isLoading = false → ReachableSeq (applyAction s .start)
  | settle {s : AppState} (r : Except String JsValue) :
      ReachableSeq s → s.isLoading = true → ReachableSeq (applyAction s (.settle r))
  | reset {s : AppState} : ReachableSeq s → ReachableSeq (handleReset s)

/-- The payload-exclusivity invariant: result and error are never both held,
a loading state holds neither, and the synchronous prefix of a new
submission clears both payloads before the remote call is issued. -/
def stateInvariant (s : AppState) : Prop :=
  ¬(s.result.isSome = true ∧ s.error.isSome = true) ∧
  (s.isLoading = true → s.result = none ∧ s.error = none) ∧
  ((applyAction s .start).result = none ∧ (applyAction s .start).error = none)

/-- Form state from the end-to-end example of the spec: text and platform
filled in, the remaining fields at their defaults. -/
def exampleForm : FormData :=
  { initialFormData with text := .str "new sneaker launch", platform := .str "Instagram" }

/-- The stub service response body of the end-to-end example. -/
def exampleResult : JsValue :=
  .obj [("content", .str "🔥 New drop!"), ("intent", .str "promotional"),
        ("sentiment", .str "positive"), ("documents", .arr [.str "d1"]),
        ("time_taken", .num (4 / 5)), ("fallback_used", .bool false),
        ("reason", .null)]

/-- A successful HTTP exchange delivering the example body. -/
def exampleResponse : HttpResponse :=
  { status := 200, data := exampleResult, statusText := "OK" }

/-- Form state whose text consists of whitespace only. -/
def whitespaceForm : FormData :=
  { initialFormData with text := .str "   " }

/-- Form state after the user types a topic, drags the temperature input to
1.7 and types 2000 into the max tokens input (as change events carry them). -/
def clampEditedForm : FormData :=
  handleInputChange { name := "max_tokens", value := "2000", isCheckbox := false, checked := false }
    (handleInputChange { name := "temperature", value := "1.7", isCheckbox := false, checked := false }
      (handleInputChange { name := "text", value := "launch post", isCheckbox := false, checked := false }
        initialFormData))

/-- Form state after the user types a topic, sets temperature to 0.8 and
max tokens to 200 through the form controls. -/
def editedForm : FormData :=
  handleInputChange { name := "max_tokens", value := "200", isCheckbox := false, checked := false }
    (handleInputChange { name := "temperature", value := "0.8", isCheckbox := false, checked := false }
      (handleInputChange { name := "text", value := "new sneaker launch", isCheckbox := false, checked := false }
        initialFormData))

/-- Decoded body of a generation that an earlier, stale submission settles
with after a newer submission has already settled. -/
def resultA : JsValue := .str "stale result of submission A"

/-- Decoded body of the newer submission in the interleaving scenario. -/
def resultB : JsValue := .str "result of submission B"

/-- Helper: checkHealth on a received response reports exactly whether the
status is 200, whether or not axios resolved the call. -/
theorem checkHealth_response (r : HttpResponse) :
    checkHealth (.response r) = (r.status == 200) := by
  by_cases h : 200 ≤ r.status ∧ r.status < 300
  · simp [checkHealth, axiosExec, h]
  · have hb : (r.status == 200) = false := by
      rw [beq_eq_false_iff_ne]
      omega
    simp [checkHealth, axiosExec, h, hb]

/-- C1: for every well-formed submission (text not blank) whose remote call
resolves successfully (2xx response), the flow publishes exactly the decoded
response body as result, with loading off and no error: no transformation or
validation stands between response.data and the published state. -/
theorem submit_success_publishes_decoded_body
    (fd : FormData) (r : HttpResponse) (s : AppState)
    (hblank : textBlank fd = false) (h1 : 200 ≤ r.status) (h2 : r.status < 300) :
    (submitFlow fd (.response r) s).1 =
      { result := some r.data, isLoading := false, error := none } := by
  simp [submitFlow, handleSubmit, hblank, handleGenerate, generateContent,
    axiosExec, h1, h2]

/-- Witness for C1 at the end-to-end example of the spec. -/
theorem submit_success_publishes_decoded_body_witness :
    (submitFlow exampleForm (.response exampleResponse) initialAppState).1 =
      { result := some exampleResult, isLoading := false, error := none } :=
  submit_success_publishes_decoded_body exampleForm exampleResponse
    initialAppState (by decide) (by decide) (by decide)

/-- C2: a form whose text trims to the empty string is blocked in
handleSubmit with the validation alert; onGenerate is never called, no
payload is posted, and the App state is untouched. -/
theorem blank_text_blocks_network
    (fd : FormData) (o : TransportOutcome) (s : AppState) (t : String)
    (htext : fd.text = .str t) (htrim : jsTrim t = "") :
    handleSubmit fd = .alert "Please enter your content idea" ∧
    submitFlow fd o s = (s, none) := by
  have hb : textBlank fd = true := by
    simp [textBlank, htext, htrim]
  exact ⟨by simp [handleSubmit, hb], by simp [submitFlow, handleSubmit, hb]⟩

/-- Witness for C2 on a whitespace-only text field. -/
theorem blank_text_blocks_network_witness :
    handleSubmit whitespaceForm = .alert "Please enter your content idea" ∧
    submitFlow whitespaceForm .noResponse initialAppState = (initialAppState, none) :=
  blank_text_blocks_network whitespaceForm .noResponse initialAppState
    "   " rfl (by decide)

/-- C6: the axios instance carries the 60000 ms timeout; when no response is
received (connection refused, DNS failure, or the timeout elapsing) the call
fails with the Network Error message, and handleGenerate then settles in the
single terminal failure state, with isLoading false and no result. -/
theorem network_failure_yields_terminal_failure :
    api.timeout = 60000 ∧
    (∃ rest : String, networkErrorMessage = "Network Error" ++ rest) ∧
    (∀ p : JsValue, generateContent p .noResponse = .error networkErrorMessage) ∧
    (∀ (p : JsValue) (s : AppState),
      handleGenerate p .noResponse s =
        { result := none, isLoading := false, error := some networkErrorMessage }) :=
  ⟨rfl,
   ⟨": Unable to connect to server. Please check if backend is running.", rfl⟩,
   fun _ => rfl,
   fun _ _ => rfl⟩

/-- C7: checkHealth is a total boolean function of the transport outcome (it
never throws); it returns true exactly when a response with HTTP status 200
was received, and false for every other status or transport failure — in
particular false, not an exception, for a 503 response. -/
theorem checkHealth_never_throws_true_iff_200 :
    (∀ o : TransportOutcome, checkHealth o = true ↔
      ∃ r : HttpResponse, o = .response r ∧ r.status = 200) ∧
    checkHealth (.response ⟨503, .null, "Service Unavailable"⟩) = false := by
  refine ⟨fun o => ?_, rfl⟩
  cases o with
  | response r =>
    rw [checkHealth_response, beq_iff_eq]
    constructor
    · intro h
      exact ⟨r, rfl, h⟩
    · rintro ⟨r1, h1, h2⟩
      injection h1 with h3
      rw [h3]
      exact h2
  | noResponse => simp [checkHealth, axiosExec]
  | setupFailure m => simp [checkHealth, axiosExec]

/-- C10: handleReset clears both the result and the error payload, leaves
the isLoading flag untouched, is idempotent, and from any non-loading state
(Idle included) returns the state to Idle. -/
theorem reset_clears_to_idle (s : AppState) :
    (handleReset s).result = none ∧ (handleReset s).error = none ∧
    (handleReset s).isLoading = s.isLoading ∧
    handleReset (handleReset s) = handleReset s ∧
    (s.isLoading = false → handleReset s = initialAppState) := by
  refine ⟨rfl, rfl, rfl, rfl, fun h => ?_⟩
  simp [handleReset, initialAppState, h]

/-- Witness for C10: resetting away a terminal failure state reaches Idle. -/
theorem reset_clears_to_idle_witness :
    handleReset { result := none, isLoading := false, error := some "boom" } =
      initialAppState :=
  (reset_clears_to_idle _).2.2.2.2 rfl

/-- C3 counterexample: after the user enters temperature 1.7 and max tokens
2000, the submission does reach the network, and the payload carries those
fields exactly as form state holds them — the raw strings of the change
events — not the clamped numbers 1.0 and 1024 the claim requires. No
normalization runs between the form and the POST. -/
theorem clamping_counterexample :
    (submitFlow clampEditedForm .noResponse initialAppState).2 =
      some (wireBody clampEditedForm) ∧
    jsGetOpt (wireBody clampEditedForm) "temperature" = .str "1.7" ∧
    jsGetOpt (wireBody clampEditedForm) "max_tokens" = .str "2000" ∧
    JsValue.str "1.7" ≠ .num 1 ∧
    JsValue.str "2000" ≠ .num 1024 :=
  ⟨rfl, rfl, rfl, fun h => JsValue.noConfusion h, fun h => JsValue.noConfusion h⟩

/-- C3 amended: no clamping or other normalization is applied anywhere on
the submission path; for every non-blocked submission the JSON body POSTed
to /generate carries the temperature and max_tokens fields exactly as the
form state holds them. -/
theorem payload_passthrough_no_normalization
    (fd : FormData) (o : TransportOutcome) (s : AppState)
    (h : textBlank fd = false) :
    (submitFlow fd o s).2 = some (wireBody fd) ∧
    jsGetOpt (wireBody fd) "temperature" = fd.temperature ∧
    jsGetOpt (wireBody fd) "max_tokens" = fd.max_tokens :=
  ⟨by simp [submitFlow, handleSubmit, h], rfl, rfl⟩

/-- Witness for the amended C3 at the edited form of the counterexample. -/
theorem payload_passthrough_no_normalization_witness :
    (submitFlow clampEditedForm .noResponse initialAppState).2 =
      some (wireBody clampEditedForm) ∧
    jsGetOpt (wireBody clampEditedForm) "temperature" = clampEditedForm.temperature ∧
    jsGetOpt (wireBody clampEditedForm) "max_tokens" = clampEditedForm.max_tokens :=
  payload_passthrough_no_normalization clampEditedForm .noResponse
    initialAppState (by decide)

/-- C4 counterexample: an HTTP 500 response with body message
"model unavailable" makes generateContent fail with the message
"API Error: model unavailable", which is not equal to the body message
itself as the claim requires — the code prefixes every server failure. -/
theorem server_error_message_counterexample :
    generateContent (.obj [])
      (.response ⟨500, .obj [("message", .str "model unavailable")],
        "Internal Server Error"⟩) =
      .error "API Error: model unavailable" ∧
    "API Error: model unavailable" ≠ "model unavailable" :=
  ⟨rfl, by decide⟩

/-- C4 amended: for every non-success response, the failure message is
"API Error: " followed by the message field of the structured error body
when that field is present and truthy, and by the status text when the field
is absent. -/
theorem server_error_message_format (p : JsValue) (st : Nat) (body : JsValue)
    (stxt : String) (h : ¬(200 ≤ st ∧ st < 300)) :
    (∀ m : String, jsGetOpt body "message" = .str m → m ≠ "" →
      generateContent p (.response ⟨st, body, stxt⟩) =
        .error ("API Error: " ++ m)) ∧
    (jsGetOpt body "message" = .undefined →
      generateContent p (.response ⟨st, body, stxt⟩) =
        .error ("API Error: " ++ stxt)) := by
  constructor
  · intro m hm hne
    have hf : jsFalsy (.str m) = false := by
      simp [jsFalsy, hne]
    simp [generateContent, axiosExec, h, hm, jsOr, hf, jsToString]
  · intro hm
    simp [generateContent, axiosExec, h, hm, jsOr, jsFalsy, jsToString]

/-- Witness for the amended C4: a 503 without a structured body falls back
to the status text, again behind the API Error prefix. -/
theorem server_error_message_format_witness :
    generateContent (.obj [])
      (.response ⟨503, .obj [], "Service Unavailable"⟩) =
      .error "API Error: Service Unavailable" :=
  (server_error_message_format (.obj []) 503 (.obj []) "Service Unavailable"
    (by decide)).2 rfl

/-- C5 counterexample: handleGenerate has no re-entrancy guard, so two
overlapping invocations are both in flight. Schedule, in time order: the
synchronous prefix of submit(A), then of submit(B), then the call of B
settles with resultB, then the stale call of A settles with resultA. The
final published state holds resultA — the stale outcome of A overwrites the
state produced by the newer submission B, refuting last-submission-wins. -/
theorem stale_overwrite_counterexample :
    runActions initialAppState
      [.start, .start, .settle (.ok resultB), .settle (.ok resultA)] =
      { result := some resultA, isLoading := false, error := none } ∧
    resultA ≠ resultB := by
  refine ⟨rfl, fun h => ?_⟩
  injection h with h1
  exact absurd h1 (by decide)

/-- C5 amended: re-entrancy is guarded only by the caller (the Generator
disables its submit button while isLoading); when submissions are kept
sequential — each settles before the next starts — the final state reflects
exactly the outcome of the last submission. -/
theorem sequential_last_submission_wins
    (s : AppState) (a b : Except String JsValue) :
    runActions s [.start, .settle a, .start, .settle b] =
      match b with
      | .ok v => { result := some v, isLoading := false, error := none }
      | .error m => { result := none, isLoading := false, error := some m } := by
  cases s
  cases a <;> cases b <;> rfl

/-- C8 counterexample: the claim quantifies over every state reachable
through the orchestrator operations alone, but those operations do not
guard re-entrancy: two submits followed by their two completions — one
successful, one failed — leave a state holding a result payload and an
error payload at the same time. -/
theorem dual_payload_counterexample :
    (runActions initialAppState
      [.start, .start, .settle (.ok resultA),
       .settle (.error "API Error: model unavailable")]).result.isSome = true ∧
    (runActions initialAppState
      [.start, .start, .settle (.ok resultA),
       .settle (.error "API Error: model unavailable")]).error.isSome = true :=
  ⟨rfl, rfl⟩

/-- C8 amended: in every state reachable while submissions stay strictly
sequential (no submit starts while one is loading, which the UI enforces by
disabling the button), at most one of the result and error payloads is held,
a loading state holds neither, and the synchronous prefix of a submission
clears both payloads before the remote call is issued. -/
theorem sequential_submissions_invariant :
    ∀ s : AppState, ReachableSeq s → stateInvariant s := by
  intro s h
  induction h with
  | init => simp [stateInvariant, initialAppState, applyAction]
  | start h1 h2 ih => simp [stateInvariant, applyAction]
  | settle r h1 h2 ih =>
    obtain ⟨-, hclear, -⟩ := ih
    obtain ⟨hr, he⟩ := hclear h2
    cases r with
    | ok v => simp [stateInvariant, applyAction, hr, he]
    | error m => simp [stateInvariant, applyAction, hr, he]
  | reset h1 ih => simp [stateInvariant, applyAction, handleReset]

/-- Witness for the amended C8 at the loading state reached by one submit. -/
theorem sequential_submissions_invariant_witness :
    stateInvariant (applyAction initialAppState .start) :=
  sequential_submissions_invariant (applyAction initialAppState .start)
    (ReachableSeq.start ReachableSeq.init rfl)

/-- C9: after the user edits the temperature and max tokens fields, the
submission posts those fields as JSON strings — the raw e.target.value of
the change events — never as a JSON number: handleInputChange stores the DOM
string, contradicting the documented numeric payload contract of
generateContent in services/api.js. -/
theorem edited_numeric_fields_posted_as_strings :
    (submitFlow editedForm .noResponse initialAppState).2 =
      some (wireBody editedForm) ∧
    jsGetOpt (wireBody editedForm) "temperature" = .str "0.8" ∧
    jsGetOpt (wireBody editedForm) "max_tokens" = .str "200" ∧
    (∀ q : ℚ, jsGetOpt (wireBody editedForm) "temperature" ≠ .num q) ∧
    (∀ q : ℚ, jsGetOpt (wireBody editedForm) "max_tokens" ≠ .num q) :=
  ⟨rfl, rfl, rfl, fun _ h => JsValue.noConfusion h, fun _ h => JsValue.noConfusion h⟩

end Promptly
